import Mathlib

/-!
Verification of the filtering-and-aggregation pipeline of the happiness
dashboard (`Happy_app.py`), shallowly embedded in Lean.

Floating-point column values are modelled as `Option ℚ`: `none` stands for
a missing value (pandas `NaN`), `some q` for a present numeric value.
Aggregations that pandas answers with `NaN` (empty or all-missing input)
are modelled with `none` in `Option ℚ`.
-/

namespace HappyApp

/-- One row of the dataset: the columns the app reads.  `year` has already
been coerced to integer by the loader; the numeric columns may be missing. -/
structure Record where
  country : String
  year : Int
  lifeLadder : Option ℚ
  logGdpPerCapita : Option ℚ
  socialSupport : Option ℚ
  healthyLifeExpectancy : Option ℚ
deriving DecidableEq

/-- `filtered_data` (Happy_app.py lines 38-42): keep the rows whose
`Country name` is among the selected countries and whose year lies in the
inclusive slider range. -/
def filtered_data (data : List Record) (selected : List String)
    (yearLo yearHi : Int) : List Record :=
  data.filter fun r =>
    selected.contains r.country && decide (yearLo ≤ r.year) && decide (r.year ≤ yearHi)

/-- The present (non-missing) values of a numeric column over a row list;
this is the multiset pandas reductions operate on after skipping `NaN`. -/
def presentVals (col : Record → Option ℚ) (rows : List Record) : List ℚ :=
  rows.filterMap col

/-- Minimum of a list of values, `none` on the empty list: the behaviour of
a pandas `Series.min` (which answers `NaN` when nothing is present). -/
def listMin : List ℚ → Option ℚ
  | [] => none
  | x :: xs =>
    match listMin xs with
    | none => some x
    | some m => some (min x m)

/-- Maximum of a list of values, `none` on the empty list: the behaviour of
a pandas `Series.max`. -/
def listMax : List ℚ → Option ℚ
  | [] => none
  | x :: xs =>
    match listMax xs with
    | none => some x
    | some m => some (max x m)

/-- Mean of a list of values, `none` on the empty list: the behaviour of a
pandas `Series.mean`, which skips missing values and answers `NaN` when no
value is present. -/
def seriesMean (vals : List ℚ) : Option ℚ :=
  if vals.isEmpty then none else some (vals.sum / vals.length)

/-- `avg_score` (line 45): mean of the `Life Ladder` column of the view. -/
def avg_score (rows : List Record) : Option ℚ :=
  seriesMean (presentVals Record.lifeLadder rows)

/-- `min_score` (line 46): minimum of the `Life Ladder` column of the view. -/
def min_score (rows : List Record) : Option ℚ :=
  listMin (presentVals Record.lifeLadder rows)

/-- `max_score` (line 47): maximum of the `Life Ladder` column of the view. -/
def max_score (rows : List Record) : Option ℚ :=
  listMax (presentVals Record.lifeLadder rows)

/-- What a key-statistics cell shows: the `"N/A"` sentinel, the string
pandas prints for `NaN`, or a formatted number. -/
inductive Metric where
  | na
  | nan
  | value (q : ℚ)
deriving DecidableEq

/-- Lines 51-53: a metric cell shows `"N/A"` iff the filtered view is empty;
otherwise it formats the aggregate (which formats `NaN` as a number-like
string when the aggregate is missing). -/
def displayMetric (rows : List Record) (s : Option ℚ) : Metric :=
  if rows.isEmpty then Metric.na
  else
    match s with
    | none => Metric.nan
    | some q => Metric.value q

/-- Convenience constructor for rows whose three optional non-score columns
are absent. -/
def mkRec (c : String) (y : Int) (ll : Option ℚ) : Record :=
  { country := c, year := y, lifeLadder := ll, logGdpPerCapita := none,
    socialSupport := none, healthyLifeExpectancy := none }

/-- The spec's skip-missing example: `Life Ladder` values `[5.0, missing, 7.0]`. -/
def skipMissingExample : List Record :=
  [mkRec "A" 2015 (some 5), mkRec "A" 2016 none, mkRec "A" 2017 (some 7)]

/-- A raw `year` cell as read by `pd.read_csv`: either a numeric value or a
non-numeric string. -/
inductive RawYear where
  | num (n : Int)
  | nonNum (s : String)
deriving DecidableEq

/-- A raw CSV row before the `astype(int)` coercion of the year column
(line 10). -/
structure RawRecord where
  country : String
  rawYear : RawYear
  lifeLadder : Option ℚ
  logGdpPerCapita : Option ℚ
  socialSupport : Option ℚ
  healthyLifeExpectancy : Option ℚ
deriving DecidableEq

/-- The loader's one failure kind (the spec's `MalformedDataError`): the
file is missing or unreadable, or a year cell is non-numeric. -/
inductive LoadError where
  | malformedData
deriving DecidableEq

/-- One raw row with its numeric year `n` installed as an integer, all
other columns unchanged. -/
def coerceRow (rr : RawRecord) (n : Int) : Record :=
  { country := rr.country, year := n, lifeLadder := rr.lifeLadder,
    logGdpPerCapita := rr.logGdpPerCapita, socialSupport := rr.socialSupport,
    healthyLifeExpectancy := rr.healthyLifeExpectancy }

/-- The `astype(int)` pass over the rows (line 10): fails on a non-numeric
year, otherwise produces the records with integer years. -/
def coerceYears : List RawRecord → Except LoadError (List Record)
  | [] => Except.ok []
  | r :: rs =>
    match r.rawYear with
    | RawYear.nonNum _ => Except.error LoadError.malformedData
    | RawYear.num n =>
      match coerceYears rs with
      | Except.error e => Except.error e
      | Except.ok tl => Except.ok (coerceRow r n :: tl)

/-- `load_data` (lines 8-11): read the CSV file (`none` models a missing or
unreadable file, `some rows` a readable one) and coerce the year column to
integer. -/
def load_data (file : Option (List RawRecord)) :
    Except LoadError (List Record) :=
  match file with
  | none => Except.error LoadError.malformedData
  | some rs => coerceYears rs

/-- An output record is its raw row with the year cell coerced to integer
and every other column unchanged. -/
def yearCoerced (rr : RawRecord) (out : Record) : Prop :=
  out.country = rr.country ∧ rr.rawYear = RawYear.num out.year ∧
  out.lifeLadder = rr.lifeLadder ∧ out.logGdpPerCapita = rr.logGdpPerCapita ∧
  out.socialSupport = rr.socialSupport ∧
  out.healthyLifeExpectancy = rr.healthyLifeExpectancy

/-- A concrete raw row with a numeric year. -/
def rawMongolia : RawRecord :=
  { country := "Mongolia", rawYear := RawYear.num 2015, lifeLadder := some 5,
    logGdpPerCapita := none, socialSupport := none,
    healthyLifeExpectancy := none }

/-- The dataframe the script passes around after filtering: its rows plus
the names of any columns assigned onto the frame beyond the columns of the
dataset (which `Record` carries implicitly). -/
structure View where
  rows : List Record
  extraCols : List String
deriving DecidableEq

/-- The state of one script run: the loaded dataset and the current
`filtered_data` frame. -/
structure AppState where
  data : List Record
  view : View
deriving DecidableEq

/-- Lines 38-42 as a pipeline step: recompute `filtered_data` from the
dataset and the widget inputs; the fresh frame has no extra columns. -/
def runFilter (selected : List String) (yearLo yearHi : Int)
    (s : AppState) : AppState :=
  { s with
    view := { rows := filtered_data s.data selected yearLo yearHi,
              extraCols := [] } }

/-- Lines 127-142 (Comparisons tab): when more than one country is selected
the script assigns a new `Country (Year)` column onto `filtered_data`,
changing the frame in place; otherwise the frame is untouched. -/
def comparisonsTab (selected : List String) (s : AppState) : AppState :=
  if 1 < selected.length then
    { s with
      view := { rows := s.view.rows,
                extraCols := s.view.extraCols ++ ["Country (Year)"] } }
  else s

/-- Line 145: `to_csv` serializes the columns of the frame in order: the
columns of the dataset followed by any columns assigned onto the frame. -/
def exportColumns (cols : List String) (v : View) : List String :=
  cols ++ v.extraCols

/-- The path of the script from the widgets to the download button: filter
(lines 38-42), run the Comparisons tab (lines 127-142), then serialize the
frame (line 145). -/
def scriptExportColumns (cols : List String) (data : List Record)
    (selected : List String) (yearLo yearHi : Int) : List String :=
  exportColumns cols
    ((comparisonsTab selected
      (runFilter selected yearLo yearHi
        { data := data, view := { rows := [], extraCols := [] } })).view)

/-- First row attaining the maximal present `Life Ladder` value, paired as
(value, its `year`): pandas `idxmax` keeps the first occurrence and skips
missing values (line 68). -/
def bestMax : List Record → Option (ℚ × Int)
  | [] => none
  | r :: rs =>
    match r.lifeLadder, bestMax rs with
    | none, b => b
    | some v, none => some (v, r.year)
    | some v, some (m, y) => if m ≤ v then some (v, r.year) else some (m, y)

/-- First row attaining the minimal present `Life Ladder` value, paired as
(value, its `year`): pandas `idxmin` keeps the first occurrence and skips
missing values (line 69). -/
def bestMin : List Record → Option (ℚ × Int)
  | [] => none
  | r :: rs =>
    match r.lifeLadder, bestMin rs with
    | none, b => b
    | some v, none => some (v, r.year)
    | some v, some (m, y) => if v ≤ m then some (v, r.year) else some (m, y)

/-- The indicators of the Insights markdown body (lines 64-73). -/
structure Insights where
  country : String
  avgLifeLadder : Option ℚ
  maxLifeLadder : Option (ℚ × Int)
  minLifeLadder : Option (ℚ × Int)
  avgSocialSupport : Option ℚ
  avgHealthyLifeExpectancy : Option ℚ
  avgLogGdpPerCapita : Option ℚ
deriving DecidableEq

/-- What the Insights tab renders. -/
inductive InsightsOutput where
  | detail (i : Insights)
  | noData (c : String)
  | selectSingle
deriving DecidableEq

/-- Lines 63-76: what the Insights tab renders for one country given its
rows `cd` (`country_data`). -/
def insightsFor (c : String) (cd : List Record) : InsightsOutput :=
  if cd.isEmpty then InsightsOutput.noData c
  else
    InsightsOutput.detail
      { country := c,
        avgLifeLadder := seriesMean (presentVals Record.lifeLadder cd),
        maxLifeLadder := bestMax cd,
        minLifeLadder := bestMin cd,
        avgSocialSupport := seriesMean (presentVals Record.socialSupport cd),
        avgHealthyLifeExpectancy :=
          seriesMean (presentVals Record.healthyLifeExpectancy cd),
        avgLogGdpPerCapita :=
          seriesMean (presentVals Record.logGdpPerCapita cd) }

/-- Lines 59-79 (Insights tab).  With exactly one selected country the tab
derives `country_data` from the full dataset `data` — not from
`filtered_data` — so the year-range widgets never enter. -/
def insightsTab (data : List Record) (selected : List String)
    (_yearLo _yearHi : Int) : InsightsOutput :=
  match selected with
  | [c] => insightsFor c (data.filter fun r => r.country == c)
  | _ => InsightsOutput.selectSingle

/-- Membership characterisation of the boolean-mask filter (helper shared by
several developments below). -/
theorem mem_filtered_data (data : List Record) (selected : List String)
    (yearLo yearHi : Int) (r : Record) :
    r ∈ filtered_data data selected yearLo yearHi ↔
      r ∈ data ∧ r.country ∈ selected ∧ yearLo ≤ r.year ∧ r.year ≤ yearHi := by
  simp [filtered_data, List.mem_filter, and_assoc]

/-- `listMin` answers `none` exactly on the empty list. -/
theorem listMin_eq_none (xs : List ℚ) : listMin xs = none ↔ xs = [] := by
  cases xs with
  | nil => simp [listMin]
  | cons x xs =>
    simp only [listMin]
    cases listMin xs <;> simp

/-- `listMax` answers `none` exactly on the empty list. -/
theorem listMax_eq_none (xs : List ℚ) : listMax xs = none ↔ xs = [] := by
  cases xs with
  | nil => simp [listMax]
  | cons x xs =>
    simp only [listMax]
    cases listMax xs <;> simp

/-- `listMin` produces an element of the list that bounds it from below. -/
theorem listMin_spec (xs : List ℚ) :
    ∀ m : ℚ, listMin xs = some m → m ∈ xs ∧ ∀ v ∈ xs, m ≤ v := by
  induction xs with
  | nil => intro m h; simp [listMin] at h
  | cons x xs ih =>
    intro m h
    simp only [listMin] at h
    cases hxs : listMin xs with
    | none =>
      rw [hxs] at h
      have hnil : xs = [] := (listMin_eq_none xs).1 hxs
      subst hnil
      injection h with h
      subst h
      exact ⟨List.mem_singleton.2 rfl, by intro v hv; rw [List.mem_singleton.1 hv]⟩
    | some m' =>
      rw [hxs] at h
      injection h with h
      obtain ⟨hmem, hle⟩ := ih m' hxs
      subst h
      refine ⟨?_, ?_⟩
      · rcases le_total x m' with hx | hx
        · rw [min_eq_left hx]; exact List.mem_cons_self x xs
        · rw [min_eq_right hx]; exact List.mem_cons_of_mem _ hmem
      · intro v hv
        rcases List.mem_cons.1 hv with rfl | hv'
        · exact min_le_left _ _
        · exact le_trans (min_le_right _ _) (hle v hv')

/-- `listMax` produces an element of the list that bounds it from above. -/
theorem listMax_spec (xs : List ℚ) :
    ∀ m : ℚ, listMax xs = some m → m ∈ xs ∧ ∀ v ∈ xs, v ≤ m := by
  induction xs with
  | nil => intro m h; simp [listMax] at h
  | cons x xs ih =>
    intro m h
    simp only [listMax] at h
    cases hxs : listMax xs with
    | none =>
      rw [hxs] at h
      have hnil : xs = [] := (listMax_eq_none xs).1 hxs
      subst hnil
      injection h with h
      subst h
      exact ⟨List.mem_singleton.2 rfl, by intro v hv; rw [List.mem_singleton.1 hv]⟩
    | some m' =>
      rw [hxs] at h
      injection h with h
      obtain ⟨hmem, hle⟩ := ih m' hxs
      subst h
      refine ⟨?_, ?_⟩
      · rcases le_total x m' with hx | hx
        · rw [max_eq_right hx]; exact List.mem_cons_of_mem _ hmem
        · rw [max_eq_left hx]; exact List.mem_cons_self x xs
      · intro v hv
        rcases List.mem_cons.1 hv with rfl | hv'
        · exact le_max_left _ _
        · exact le_trans (hle v hv') (le_max_right _ _)

/-- Dropping the rows whose column value is missing does not change the
present values the reductions see. -/
theorem presentVals_filter_isSome (col : Record → Option ℚ) (rows : List Record) :
    presentVals col (rows.filter fun r => (col r).isSome) = presentVals col rows := by
  induction rows with
  | nil => rfl
  | cons r rs ih =>
    simp only [presentVals] at ih ⊢
    cases hcr : col r with
    | none => simp [List.filter_cons, List.filterMap_cons, hcr, ih]
    | some q => simp [List.filter_cons, List.filterMap_cons, hcr, ih]

/-- The year coercion fails exactly when some raw row has a non-numeric
year cell. -/
theorem coerceYears_error_iff (rs : List RawRecord) :
    coerceYears rs = Except.error LoadError.malformedData ↔
      ∃ r ∈ rs, ∃ s, r.rawYear = RawYear.nonNum s := by
  induction rs with
  | nil => simp [coerceYears]
  | cons r rs ih =>
    cases hr : r.rawYear with
    | nonNum s =>
      simp only [coerceYears, hr]
      constructor
      · intro _
        exact ⟨r, List.mem_cons_self r rs, s, hr⟩
      · intro _
        trivial
    | num n =>
      simp only [coerceYears, hr]
      cases hrec : coerceYears rs with
      | error e =>
        cases e
        constructor
        · intro _
          obtain ⟨r', hmem, s, hs⟩ := ih.1 hrec
          exact ⟨r', List.mem_cons_of_mem _ hmem, s, hs⟩
        · intro _
          trivial
      | ok tl =>
        constructor
        · intro h
          exact absurd h (by simp)
        · rintro ⟨r', hmem, s, hs⟩
          rcases List.mem_cons.1 hmem with rfl | hmem'
          · rw [hr] at hs
            cases hs
          · have h2 := ih.2 ⟨r', hmem', s, hs⟩
            rw [hrec] at h2
            simp at h2

/-- When every raw year cell is numeric the coercion succeeds and relates
the raw rows to the output records pointwise. -/
theorem coerceYears_ok (rs : List RawRecord)
    (h : ∀ r ∈ rs, ∃ n, r.rawYear = RawYear.num n) :
    ∃ out, coerceYears rs = Except.ok out ∧ List.Forall₂ yearCoerced rs out := by
  induction rs with
  | nil => exact ⟨[], rfl, List.Forall₂.nil⟩
  | cons r rs ih =>
    obtain ⟨n, hn⟩ := h r (List.mem_cons_self r rs)
    obtain ⟨out, hout, hrel⟩ := ih fun r' hr' => h r' (List.mem_cons_of_mem _ hr')
    refine ⟨coerceRow r n :: out, ?_, ?_⟩
    · simp only [coerceYears, hn, hout]
    · exact List.Forall₂.cons (by simp [yearCoerced, coerceRow, hn]) hrel

end HappyApp

namespace HappyApp

/-- C1: a record is included in the filtered view iff its country is a member
of the selected set and its year lies in the inclusive range
`[yearLo, yearHi]`. -/
theorem filter_includes_iff (data : List Record) (selected : List String)
    (yearLo yearHi : Int) (r : Record) :
    r ∈ filtered_data data selected yearLo yearHi ↔
      r ∈ data ∧ r.country ∈ selected ∧ yearLo ≤ r.year ∧ r.year ≤ yearHi :=
  mem_filtered_data data selected yearLo yearHi r

/-- C2 counterexample: on a non-empty view whose `Life Ladder` values are all
missing, the three key-statistics cells do not show the `"N/A"` sentinel
(they show pandas' formatted `NaN` instead), refuting the claim that an
all-missing column yields the unavailable sentinel. -/
theorem aggregate_all_missing_not_sentinel :
    ¬ (displayMetric [mkRec "Mongolia" 2015 none]
          (avg_score [mkRec "Mongolia" 2015 none]) = Metric.na ∧
       displayMetric [mkRec "Mongolia" 2015 none]
          (min_score [mkRec "Mongolia" 2015 none]) = Metric.na ∧
       displayMetric [mkRec "Mongolia" 2015 none]
          (max_score [mkRec "Mongolia" 2015 none]) = Metric.na) := by
  decide

/-- C2 amended: on an empty view all three metric cells show the `"N/A"`
sentinel; but on a non-empty view whose `Life Ladder` values are all missing
they show `NaN` (pandas' missing aggregate), not the sentinel. -/
theorem aggregate_empty_unavailable (rows : List Record) :
    (rows = [] →
      displayMetric rows (avg_score rows) = Metric.na ∧
      displayMetric rows (min_score rows) = Metric.na ∧
      displayMetric rows (max_score rows) = Metric.na) ∧
    (rows ≠ [] → presentVals Record.lifeLadder rows = [] →
      displayMetric rows (avg_score rows) = Metric.nan ∧
      displayMetric rows (min_score rows) = Metric.nan ∧
      displayMetric rows (max_score rows) = Metric.nan) := by
  constructor
  · rintro rfl
    exact ⟨rfl, rfl, rfl⟩
  · intro hne hpv
    have hempty : rows.isEmpty = false := by
      cases rows with
      | nil => exact absurd rfl hne
      | cons r rs => rfl
    simp [displayMetric, avg_score, min_score, max_score, seriesMean, hpv,
      hempty, listMin, listMax]

/-- C2 amended, witness: the empty view shows `"N/A"`, and a concrete
non-empty all-missing view shows `NaN`. -/
theorem aggregate_empty_unavailable_witness :
    (([] : List Record) = [] ∧
      displayMetric ([] : List Record) (avg_score []) = Metric.na) ∧
    ([mkRec "M" 2015 none] ≠ ([] : List Record) ∧
      presentVals Record.lifeLadder [mkRec "M" 2015 none] = [] ∧
      displayMetric [mkRec "M" 2015 none] (avg_score [mkRec "M" 2015 none]) =
        Metric.nan) :=
  ⟨⟨rfl, ((aggregate_empty_unavailable []).1 rfl).1⟩,
   ⟨by decide, by decide,
    ((aggregate_empty_unavailable [mkRec "M" 2015 none]).2 (by decide)
      (by decide)).1⟩⟩

/-- C3: when at least one `Life Ladder` value is present, the mean is the sum
of the present values over their count, the minimum and maximum are present
values bounding all present values, rows with a missing value are irrelevant
to all three reductions, and on the values `[5.0, missing, 7.0]` the results
are mean `6`, min `5`, max `7`. -/
theorem aggregate_skip_missing (rows : List Record)
    (h : presentVals Record.lifeLadder rows ≠ []) :
    avg_score rows =
      some ((presentVals Record.lifeLadder rows).sum /
        (presentVals Record.lifeLadder rows).length) ∧
    (∃ m, min_score rows = some m ∧ m ∈ presentVals Record.lifeLadder rows ∧
      ∀ v ∈ presentVals Record.lifeLadder rows, m ≤ v) ∧
    (∃ m, max_score rows = some m ∧ m ∈ presentVals Record.lifeLadder rows ∧
      ∀ v ∈ presentVals Record.lifeLadder rows, v ≤ m) ∧
    avg_score rows = avg_score (rows.filter fun r => r.lifeLadder.isSome) ∧
    min_score rows = min_score (rows.filter fun r => r.lifeLadder.isSome) ∧
    max_score rows = max_score (rows.filter fun r => r.lifeLadder.isSome) ∧
    avg_score skipMissingExample = some 6 ∧
    min_score skipMissingExample = some 5 ∧
    max_score skipMissingExample = some 7 := by
  have hempty : (presentVals Record.lifeLadder rows).isEmpty = false := by
    cases hpv : presentVals Record.lifeLadder rows with
    | nil => exact absurd hpv h
    | cons v vs => rfl
  refine ⟨?_, ?_, ?_, ?_, ?_, ?_, ?_, ?_, ?_⟩
  · simp [avg_score, seriesMean, hempty]
  · cases hm : listMin (presentVals Record.lifeLadder rows) with
    | none => exact absurd ((listMin_eq_none _).1 hm) h
    | some m =>
      obtain ⟨hmem, hle⟩ := listMin_spec _ m hm
      exact ⟨m, by simp [min_score, hm], hmem, hle⟩
  · cases hm : listMax (presentVals Record.lifeLadder rows) with
    | none => exact absurd ((listMax_eq_none _).1 hm) h
    | some m =>
      obtain ⟨hmem, hle⟩ := listMax_spec _ m hm
      exact ⟨m, by simp [max_score, hm], hmem, hle⟩
  · simp [avg_score, presentVals_filter_isSome Record.lifeLadder rows]
  · simp [min_score, presentVals_filter_isSome Record.lifeLadder rows]
  · simp [max_score, presentVals_filter_isSome Record.lifeLadder rows]
  · norm_num [avg_score, seriesMean, presentVals, skipMissingExample, mkRec,
      List.filterMap_cons]
  · norm_num [min_score, presentVals, skipMissingExample, mkRec, listMin,
      List.filterMap_cons, min_def]
  · norm_num [max_score, presentVals, skipMissingExample, mkRec, listMax,
      List.filterMap_cons, max_def]

/-- C3 witness: the spec's example rows have a present value, and applying
the theorem there gives the skip-missing mean. -/
theorem aggregate_skip_missing_witness :
    presentVals Record.lifeLadder skipMissingExample ≠ [] ∧
    avg_score skipMissingExample =
      some ((presentVals Record.lifeLadder skipMissingExample).sum /
        (presentVals Record.lifeLadder skipMissingExample).length) := by
  have h : presentVals Record.lifeLadder skipMissingExample ≠ [] := by decide
  exact ⟨h, (aggregate_skip_missing skipMissingExample h).1⟩

/-- C4: the loader fails with `MalformedDataError` exactly when the file is
missing/unreadable or some year cell is non-numeric; otherwise it returns
the parsed rows with the year column coerced to integer and the other
columns unchanged. -/
theorem load_data_spec (file : Option (List RawRecord)) :
    (load_data file = Except.error LoadError.malformedData ↔
      file = none ∨
        ∃ rs, file = some rs ∧ ∃ r ∈ rs, ∃ s, r.rawYear = RawYear.nonNum s) ∧
    (∀ rs, file = some rs → (∀ r ∈ rs, ∃ n, r.rawYear = RawYear.num n) →
      ∃ out, load_data file = Except.ok out ∧
        List.Forall₂ yearCoerced rs out) := by
  constructor
  · cases file with
    | none => simp [load_data]
    | some rs =>
      simp only [load_data]
      rw [coerceYears_error_iff]
      constructor
      · intro h
        exact Or.inr ⟨rs, rfl, h⟩
      · rintro (h | ⟨rs', hrs', h⟩)
        · cases h
        · injection hrs' with hrs'
          subst hrs'
          exact h
  · rintro rs rfl h
    simpa [load_data] using coerceYears_ok rs h

/-- C4 witness: a missing file fails, and a one-row file with numeric year
loads with the year coerced. -/
theorem load_data_spec_witness :
    load_data (none : Option (List RawRecord)) =
      Except.error LoadError.malformedData ∧
    ∃ out, load_data (some [rawMongolia]) = Except.ok out ∧
      List.Forall₂ yearCoerced [rawMongolia] out :=
  ⟨(load_data_spec none).1.2 (Or.inl rfl),
   (load_data_spec (some [rawMongolia])).2 [rawMongolia] rfl
     (by
       intro r hr
       rw [List.mem_singleton.1 hr]
       exact ⟨2015, rfl⟩)⟩

/-- C6: degenerate criteria never fail: an empty selected-country set gives
an empty result, an inverted year range gives an empty result, and unknown
country names simply match nothing. -/
theorem filter_degenerate (data : List Record) (selected : List String)
    (yearLo yearHi : Int) :
    filtered_data data [] yearLo yearHi = [] ∧
    (yearHi < yearLo → filtered_data data selected yearLo yearHi = []) ∧
    ((∀ r ∈ data, r.country ∉ selected) →
      filtered_data data selected yearLo yearHi = []) := by
  refine ⟨?_, ?_, ?_⟩
  · apply List.eq_nil_iff_forall_not_mem.2
    intro r hr
    rw [mem_filtered_data] at hr
    exact List.not_mem_nil _ hr.2.1
  · intro hlt
    apply List.eq_nil_iff_forall_not_mem.2
    intro r hr
    rw [mem_filtered_data] at hr
    obtain ⟨-, -, h1, h2⟩ := hr
    omega
  · intro hnone
    apply List.eq_nil_iff_forall_not_mem.2
    intro r hr
    rw [mem_filtered_data] at hr
    exact hnone r hr.1 hr.2.1

/-- C6 witness: the three degenerate cases at a concrete dataset. -/
theorem filter_degenerate_witness :
    filtered_data [mkRec "A" 2015 none] [] 2010 2023 = [] ∧
    ((2023 : Int) < 2024 ∧
      filtered_data [mkRec "A" 2015 none] ["A"] 2024 2023 = []) ∧
    ((∀ r ∈ [mkRec "A" 2015 none], r.country ∉ ["B"]) ∧
      filtered_data [mkRec "A" 2015 none] ["B"] 2010 2023 = []) :=
  ⟨(filter_degenerate [mkRec "A" 2015 none] [] 2010 2023).1,
   ⟨by decide,
    (filter_degenerate [mkRec "A" 2015 none] ["A"] 2024 2023).2.1 (by decide)⟩,
   ⟨by decide,
    (filter_degenerate [mkRec "A" 2015 none] ["B"] 2010 2023).2.2 (by decide)⟩⟩

/-- C7: the filtered view is an order-preserving subsequence of the
dataset: no record is fabricated and relative order is preserved. -/
theorem filter_sublist_of_data (data : List Record) (selected : List String)
    (yearLo yearHi : Int) :
    (filtered_data data selected yearLo yearHi).Sublist data :=
  List.filter_sublist data

/-- C8: filtering is monotone in the year range: a record included under a
narrower range is included under any containing range. -/
theorem filter_year_range_monotone (data : List Record)
    (selected : List String) (y0l y0h y1l y1h : Int) (r : Record)
    (hl : y1l ≤ y0l) (hh : y0h ≤ y1h)
    (hr : r ∈ filtered_data data selected y0l y0h) :
    r ∈ filtered_data data selected y1l y1h := by
  rw [mem_filtered_data] at hr ⊢
  obtain ⟨hd, hc, h1, h2⟩ := hr
  exact ⟨hd, hc, le_trans hl h1, le_trans h2 hh⟩

/-- C8 witness: widening `[2010, 2020]` to `[2009, 2021]` keeps a concrete
included record. -/
theorem filter_year_range_monotone_witness :
    (2009 : Int) ≤ 2010 ∧ (2020 : Int) ≤ 2021 ∧
    mkRec "A" 2015 none ∈ filtered_data [mkRec "A" 2015 none] ["A"] 2010 2020 ∧
    mkRec "A" 2015 none ∈ filtered_data [mkRec "A" 2015 none] ["A"] 2009 2021 :=
  ⟨by decide, by decide, by decide,
   filter_year_range_monotone [mkRec "A" 2015 none] ["A"] 2010 2020 2009 2021
     (mkRec "A" 2015 none) (by decide) (by decide) (by decide)⟩

/-- C5 counterexample: with two selected countries the Comparisons tab has
assigned the `Country (Year)` column onto `filtered_data` before line 145
serializes it, so the exported columns are not exactly the columns of the
input. -/
theorem export_adds_column_counterexample :
    scriptExportColumns ["Country name", "year"] [] ["A", "B"] 2010 2023 ≠
      ["Country name", "year"] := by
  decide

/-- C5 amended: with at most one selected country the exported columns are
exactly the columns of the input, in input order; with more than one the
input columns are kept in order but one extra column `Country (Year)` is
appended. -/
theorem export_columns_spec (cols : List String) (data : List Record)
    (selected : List String) (yearLo yearHi : Int) :
    (selected.length ≤ 1 →
      scriptExportColumns cols data selected yearLo yearHi = cols) ∧
    (1 < selected.length →
      scriptExportColumns cols data selected yearLo yearHi =
        cols ++ ["Country (Year)"]) := by
  constructor
  · intro h
    have hnot : ¬ 1 < selected.length := by omega
    simp [scriptExportColumns, exportColumns, comparisonsTab, runFilter, hnot]
  · intro h
    simp [scriptExportColumns, exportColumns, comparisonsTab, runFilter, h]

/-- C5 amended, witness: one selected country exports the input columns;
two selected countries export them plus `Country (Year)`. -/
theorem export_columns_spec_witness :
    (["Mongolia"] : List String).length ≤ 1 ∧
    scriptExportColumns ["Country name", "year"] [] ["Mongolia"] 2010 2023 =
      ["Country name", "year"] ∧
    1 < (["Mongolia", "Finland"] : List String).length ∧
    scriptExportColumns ["Country name", "year"] [] ["Mongolia", "Finland"]
        2010 2023 = ["Country name", "year"] ++ ["Country (Year)"] :=
  ⟨by decide,
   (export_columns_spec ["Country name", "year"] [] ["Mongolia"]
     2010 2023).1 (by decide),
   by decide,
   (export_columns_spec ["Country name", "year"] [] ["Mongolia", "Finland"]
     2010 2023).2 (by decide)⟩

/-- C9 counterexample: with two selected countries the Comparisons tab
changes the filtered view in place (it gains the `Country (Year)` column),
so it is not true that downstream consumers only read the view. -/
theorem comparisons_mutates_view_counterexample :
    (comparisonsTab ["A", "B"]
        { data := [mkRec "A" 2015 none],
          view := { rows := [], extraCols := [] } }).view ≠
      ({ rows := [], extraCols := [] } : View) := by
  decide

/-- C9 amended: the pipeline never mutates the dataset, and re-filtering
with identical criteria yields an identical view; but the Comparisons tab
mutates the filtered view — it appends a `Country (Year)` column — whenever
more than one country is selected, and leaves it untouched otherwise. -/
theorem filter_pure_spec (s : AppState) (selected : List String)
    (yearLo yearHi : Int) :
    (runFilter selected yearLo yearHi s).data = s.data ∧
    (comparisonsTab selected s).data = s.data ∧
    runFilter selected yearLo yearHi s = runFilter selected yearLo yearHi s ∧
    (selected.length ≤ 1 → comparisonsTab selected s = s) ∧
    (1 < selected.length →
      (comparisonsTab selected s).view.rows = s.view.rows ∧
      (comparisonsTab selected s).view.extraCols =
        s.view.extraCols ++ ["Country (Year)"]) := by
  refine ⟨rfl, ?_, rfl, ?_, ?_⟩
  · unfold comparisonsTab
    split <;> rfl
  · intro h
    have hnot : ¬ 1 < selected.length := by omega
    simp [comparisonsTab, hnot]
  · intro h
    simp [comparisonsTab, h]

/-- C9 amended, witness: one selected country leaves a concrete state
untouched; two selected countries append the `Country (Year)` column. -/
theorem filter_pure_spec_witness :
    ((["A"] : List String).length ≤ 1 ∧
      comparisonsTab ["A"]
          { data := [], view := { rows := [], extraCols := [] } } =
        { data := [], view := { rows := [], extraCols := [] } }) ∧
    (1 < (["A", "B"] : List String).length ∧
      (comparisonsTab ["A", "B"]
          { data := [], view := { rows := [], extraCols := [] } }).view.extraCols =
        [] ++ ["Country (Year)"]) :=
  ⟨⟨by decide,
    (filter_pure_spec { data := [], view := { rows := [], extraCols := [] } }
      ["A"] 0 0).2.2.2.1 (by decide)⟩,
   ⟨by decide,
    ((filter_pure_spec { data := [], view := { rows := [], extraCols := [] } }
      ["A", "B"] 0 0).2.2.2.2 (by decide)).2⟩⟩

/-- C10: the Insights tab for a single selected country reads the full
dataset, so its output does not depend on the selected year range, and it
depends on the dataset only through the rows of that country. -/
theorem insights_ignore_year_range (data dataB : List Record)
    (selected : List String) (y0l y0h y1l y1h : Int)
    (hsel : selected.length = 1) :
    insightsTab data selected y0l y0h = insightsTab data selected y1l y1h ∧
    (∀ c, selected = [c] →
      data.filter (fun r => r.country == c) =
        dataB.filter (fun r => r.country == c) →
      insightsTab data selected y0l y0h =
        insightsTab dataB selected y1l y1h) := by
  constructor
  · rfl
  · rintro c rfl hfilter
    show insightsFor c (data.filter fun r => r.country == c) =
      insightsFor c (dataB.filter fun r => r.country == c)
    rw [hfilter]

/-- C10 witness: at a concrete dataset and single country the Insights
output is the same for two different year ranges. -/
theorem insights_ignore_year_range_witness :
    (["Mongolia"] : List String).length = 1 ∧
    insightsTab [mkRec "Mongolia" 2015 none] ["Mongolia"] 2010 2020 =
      insightsTab [mkRec "Mongolia" 2015 none] ["Mongolia"] 1990 2000 :=
  ⟨rfl,
   (insights_ignore_year_range [mkRec "Mongolia" 2015 none]
     [mkRec "Mongolia" 2015 none] ["Mongolia"] 2010 2020 1990 2000 rfl).1⟩

end HappyApp
